import Mathlib

/-!
Verification of the gitingest API router (`src/server/routers/api.py`).

Python strings are embedded as lists of characters (`PyStr`); Python `None`
becomes `Option.none`; Python truthiness of an optional string is
`pyOptTruthy`.  The three external collaborators invoked by the router —
`parse_query`, `clone_repo` and `ingest_query` — are environment parameters,
and every call the handler makes to one of them is recorded in an event
trace.
-/

/-- A Python string, embedded as its list of characters. -/
abbrev PyStr := List Char

/-- Coerce a Lean string literal to the embedded Python-string type. -/
def pyStr (s : String) : PyStr := s.toList

/-- Python truthiness of an optional string: `None` and `""` are falsy. -/
def pyOptTruthy : Option PyStr → Bool
  | none => false
  | some s => !s.isEmpty

/-- Python `x or d` on an optional string: the value when truthy, else `d`. -/
def pyOr (o : Option PyStr) (d : PyStr) : PyStr :=
  match o with
  | some s => if s.isEmpty then d else s
  | none => d

/-- Rendering of an optional string inside a Python f-string:
`None` renders as the text `None`. -/
def fmtOpt : Option PyStr → PyStr
  | none => pyStr "None"
  | some s => s

/-- Characters stripped by Python `str.strip()` with no argument. -/
def isPyWs (c : Char) : Bool :=
  c = ' ' || c = '\t' || c = '\n' || c = '\r' || c = '\x0b' || c = '\x0c'

/-- Python `s.strip()`: remove leading and trailing whitespace. -/
def pyStrip (s : PyStr) : PyStr :=
  ((s.dropWhile isPyWs).reverse.dropWhile isPyWs).reverse

/-- Python `s.split(",")`: split at every comma; consecutive commas and
leading or trailing commas produce empty fields, and the empty string
splits to a single empty field. -/
def splitOnComma : PyStr → List PyStr
  | [] => [[]]
  | c :: rest =>
    if c = ',' then [] :: splitOnComma rest
    else
      match splitOnComma rest with
      | [] => [[c]]
      | t :: ts => (c :: t) :: ts

/-- The set comprehension at api.py:155/159 applied to a token list:
strip every token, drop the ones that are empty after stripping, and
deduplicate (the set constructor). -/
def normalizeTokens (l : List PyStr) : List PyStr :=
  (((l.map pyStrip).filter (fun t => !t.isEmpty))).dedup

/-- api.py:155 and api.py:159: `{p.strip() for p in s.split(",") if p.strip()}`. -/
def normalizePatterns (s : PyStr) : List PyStr :=
  normalizeTokens (splitOnComma s)

/-- api.py:153-159: the pattern parameter is only split when it is truthy;
`None` and the empty string both leave the pattern set as `None`. -/
def normOptPattern : Option PyStr → Option (List PyStr)
  | none => none
  | some s => if s.isEmpty then none else some (normalizePatterns s)

/-- The fields of `gitingest.query_parsing.IngestionQuery` that api.py reads. -/
structure IngestionQuery where
  url : Option PyStr
  user_name : Option PyStr
  repo_name : Option PyStr
  slug : PyStr
  branch : Option PyStr
  subpath : PyStr
deriving DecidableEq

/-- The request model of api.py:16-37. -/
structure IngestRequest where
  source : PyStr
  max_file_size : Option Int
  include_patterns : Option (List PyStr)
  exclude_patterns : Option (List PyStr)
  branch : Option PyStr
deriving DecidableEq

/-- The pydantic bounds on `max_file_size` (api.py:20-25): when an integer is
given it must lie in `[1024, 104857600]`; an absent value is accepted. -/
def mfsValid : Option Int → Bool
  | none => true
  | some v => 1024 ≤ v && v ≤ 104857600

/-- Pydantic validation of an `IngestRequest`: `source` is any string, the
pattern sets and branch are unconstrained, and `max_file_size` must satisfy
its field bounds; `none` models a raised validation error. -/
def validateIngestRequest (source : PyStr) (max_file_size : Option Int)
    (include_patterns exclude_patterns : Option (List PyStr))
    (branch : Option PyStr) : Option IngestRequest :=
  if mfsValid max_file_size then
    some { source := source, max_file_size := max_file_size,
           include_patterns := include_patterns,
           exclude_patterns := exclude_patterns, branch := branch }
  else none

/-- The `data` dictionary of a successful response (api.py:109-113): always
all three of summary, tree and content. -/
structure IngestData where
  summary : PyStr
  tree : PyStr
  content : PyStr
deriving DecidableEq

/-- The `metadata` dictionary built at api.py:100-105. -/
structure Metadata where
  source_type : PyStr
  repository : PyStr
  branch : PyStr
  subpath : PyStr
deriving DecidableEq

/-- The response model of api.py:40-55. -/
structure IngestResponse where
  success : Bool
  data : Option IngestData
  error : Option PyStr
  metadata : Option Metadata
deriving DecidableEq

/-- A Python exception, split into the two classes the handler's `except`
clauses distinguish: `ValueError` (and its subclasses) versus every other
exception. -/
inductive PyError where
  | valueError (msg : PyStr)
  | otherError (msg : PyStr)
deriving DecidableEq

/-- Modelled from the spec: `IngestionQuery.extract_clone_config`
(gitingest.query_parsing, outside this slice) derives the clone
configuration — target location, branch and subpath — from the resolved
query (spec section 4.2). -/
structure CloneConfig where
  url : PyStr
  local_path : PyStr
  branch : Option PyStr
  subpath : PyStr
deriving DecidableEq

/-- Modelled from the spec: the derivation of the clone configuration from
the resolved query, invoked at api.py:93 only on the remote path. -/
def extract_clone_config (q : IngestionQuery) : CloneConfig :=
  { url := fmtOpt q.url, local_path := q.slug, branch := q.branch,
    subpath := q.subpath }

/-- One call made by the handler to an external collaborator. -/
inductive Event where
  | resolveCall
  | cloneConfigCall
  | cloneCall
  | ingestCall
deriving DecidableEq

/-- The external collaborators of the router: the query resolver
(`parse_query`, whose `Bool` argument is the `from_web` flag), the cloning
collaborator (`clone_repo`) and the ingestion collaborator (`ingest_query`).
An `Except.error` outcome models the Python call raising. -/
structure Env where
  parse_query : PyStr → Option Int → Bool → Option (List PyStr) →
    Option (List PyStr) → Except PyError IngestionQuery
  clone_repo : CloneConfig → Except PyError Unit
  ingest_query : IngestionQuery → Except PyError (PyStr × PyStr × PyStr)

/-- What the handler body returns: a 200 response with an `IngestResponse`
body, or a raised `HTTPException` with a status and detail string. -/
inductive HandlerResult where
  | resp (r : IngestResponse)
  | httpError (status : Nat) (detail : PyStr)
deriving DecidableEq

/-- api.py:117-123: a `ValueError` (which pydantic validation errors
subclass) becomes a 400 `HTTPException`; any other exception becomes a
`success=false` envelope carrying the exception's message. -/
def handlePyError : PyError → HandlerResult
  | .valueError m => .httpError 400 m
  | .otherError m => .resp { success := false, data := none, error := some m,
                             metadata := none }

/-- api.py:87-89: the branch override is applied only when `body.branch` is
truthy (present and non-empty). -/
def applyBranchOverride (body : IngestRequest) (q : IngestionQuery) :
    IngestionQuery :=
  if pyOptTruthy body.branch then { q with branch := body.branch } else q

/-- The metadata dictionary of api.py:100-105, computed from the resolved
(and branch-overridden) query with Python truthiness semantics. -/
def mkMetadata (q : IngestionQuery) : Metadata :=
  { source_type := if pyOptTruthy q.url then pyStr "remote" else pyStr "local"
  , repository :=
      if pyOptTruthy q.user_name then
        fmtOpt q.user_name ++ pyStr "/" ++ fmtOpt q.repo_name
      else q.slug
  , branch := pyOr q.branch (pyStr "default")
  , subpath := q.subpath }

/-- api.py:107-115: the success response, with all three data fields and
the metadata derived from the resolved query. -/
def successResponse (q : IngestionQuery) (r : PyStr × PyStr × PyStr) :
    HandlerResult :=
  .resp { success := true
        , data := some { summary := r.1, tree := r.2.1, content := r.2.2 }
        , error := none
        , metadata := some (mkMetadata q) }

/-- api.py:91-115 after a successful `parse_query`: clone when the resolved
query's url is truthy (deriving the clone configuration first), then ingest
and assemble; any raised exception is routed through the except clauses. -/
def pipelineAfterParse (env : Env) (query : IngestionQuery) :
    HandlerResult × List Event :=
  if pyOptTruthy query.url then
    match env.clone_repo (extract_clone_config query) with
    | .error e => (handlePyError e, [Event.cloneConfigCall, Event.cloneCall])
    | .ok _ =>
      match env.ingest_query query with
      | .error e =>
        (handlePyError e,
         [Event.cloneConfigCall, Event.cloneCall, Event.ingestCall])
      | .ok r =>
        (successResponse query r,
         [Event.cloneConfigCall, Event.cloneCall, Event.ingestCall])
  else
    match env.ingest_query query with
    | .error e => (handlePyError e, [Event.ingestCall])
    | .ok r => (successResponse query r, [Event.ingestCall])

/-- The POST handler body `ingest_repository` (api.py:60-123): resolve,
apply the branch override, conditionally clone, ingest, assemble; the
returned trace records every collaborator call in order. -/
def ingest_repository (env : Env) (body : IngestRequest) :
    HandlerResult × List Event :=
  match env.parse_query body.source body.max_file_size true
      body.include_patterns body.exclude_patterns with
  | .error e => (handlePyError e, [Event.resolveCall])
  | .ok q0 =>
    ((pipelineAfterParse env (applyBranchOverride body q0)).1,
     Event.resolveCall :: (pipelineAfterParse env (applyBranchOverride body q0)).2)

/-- What a full route returns to the HTTP layer: a handler outcome, a 422
request-validation rejection issued by the framework before the handler
runs (POST body validation), or an exception raised by in-handler request
construction that no except clause catches (GET, api.py:162-168). -/
inductive RouteResult where
  | resp (r : IngestResponse)
  | httpError (status : Nat) (detail : PyStr)
  | validation422
  | unhandledValidation
deriving DecidableEq

/-- Embed a handler outcome into a route outcome. -/
def RouteResult.ofHandler : HandlerResult → RouteResult
  | .resp r => .resp r
  | .httpError s d => .httpError s d

/-- The POST route: the framework validates the body against the pydantic
model and answers 422 on violation; otherwise the handler runs. -/
def ingest_repository_post (env : Env) (source : PyStr)
    (max_file_size : Option Int)
    (include_patterns exclude_patterns : Option (List PyStr))
    (branch : Option PyStr) : RouteResult × List Event :=
  match validateIngestRequest source max_file_size include_patterns
      exclude_patterns branch with
  | some body =>
    (RouteResult.ofHandler (ingest_repository env body).1,
     (ingest_repository env body).2)
  | none => (.validation422, [])

/-- The GET route `ingest_repository_get` (api.py:128-170): normalize the
comma-delimited pattern strings, construct an `IngestRequest` (whose
pydantic validation, failing, raises out of the handler uncaught) and
delegate to the POST handler. -/
def ingest_repository_get (env : Env) (source : PyStr)
    (max_file_size : Option Int)
    (include_patterns exclude_patterns : Option PyStr)
    (branch : Option PyStr) : RouteResult × List Event :=
  match validateIngestRequest source max_file_size
      (normOptPattern include_patterns) (normOptPattern exclude_patterns)
      branch with
  | some body =>
    (RouteResult.ofHandler (ingest_repository env body).1,
     (ingest_repository env body).2)
  | none => (.unhandledValidation, [])

/-- What the summary route returns: the four-entry dictionary (as an
association list preserving the construction order of api.py:204-209), or a
raised `HTTPException` whose detail may be `None`. -/
inductive SummaryResult where
  | ok (payload : List (PyStr × PyStr))
  | httpError (status : Nat) (detail : Option PyStr)
deriving DecidableEq

/-- The summary route `get_repository_summary` (api.py:175-214): run the
full handler on a request built from source and branch alone; re-raise an
`HTTPException` coming out of the handler; on `success=false` raise a 400
carrying the response's error; on success return exactly the four keys
source, summary, repository and branch.  A success response lacking data
or metadata would raise out of the `try` and be converted to a 500. -/
def get_repository_summary (env : Env) (source : PyStr)
    (branch : Option PyStr) : SummaryResult × List Event :=
  match (ingest_repository env
      { source := source, max_file_size := some 10485760,
        include_patterns := none, exclude_patterns := none,
        branch := branch }).1 with
  | .httpError s d =>
    (.httpError s (some d),
     (ingest_repository env
       { source := source, max_file_size := some 10485760,
         include_patterns := none, exclude_patterns := none,
         branch := branch }).2)
  | .resp r =>
    if r.success then
      match r.data, r.metadata with
      | some d, some m =>
        (.ok [(pyStr "source", source), (pyStr "summary", d.summary),
              (pyStr "repository", m.repository),
              (pyStr "branch", m.branch)],
         (ingest_repository env
           { source := source, max_file_size := some 10485760,
             include_patterns := none, exclude_patterns := none,
             branch := branch }).2)
      | _, _ =>
        (.httpError 500 none,
         (ingest_repository env
           { source := source, max_file_size := some 10485760,
             include_patterns := none, exclude_patterns := none,
             branch := branch }).2)
    else
      (.httpError 400 r.error,
       (ingest_repository env
         { source := source, max_file_size := some 10485760,
           include_patterns := none, exclude_patterns := none,
           branch := branch }).2)

/-- The per-minute cap of the two full ingestion routes, from the limiter
decorator string at api.py:59 and api.py:127. -/
def ingestLimit : Nat := 5

/-- The per-minute cap of the summary route, from the limiter decorator
string at api.py:174. -/
def summaryLimit : Nat := 10

/-- Modelled from the spec: the slowapi limiter (`server.server_utils.limiter`,
outside this slice) keeps, per client and route, the times of earlier
requests and admits a new request at time `now` only when fewer than
`limit` of them fall inside the rolling sixty-second window ending at
`now` (spec sections 5 and 6). -/
def rateAllows (limit now : Nat) (prior : List Nat) : Bool :=
  (prior.filter (fun t => t ≤ now && now - t < 60)).length < limit

/-- Modelled from the spec: the POST ingestion route behind the rate gate —
an over-limit request is answered with the distinct 429 status and no
pipeline stage runs. -/
def ingest_post_limited (env : Env) (now : Nat) (prior : List Nat)
    (source : PyStr) (max_file_size : Option Int)
    (include_patterns exclude_patterns : Option (List PyStr))
    (branch : Option PyStr) : RouteResult × List Event :=
  if rateAllows ingestLimit now prior then
    ingest_repository_post env source max_file_size include_patterns
      exclude_patterns branch
  else (.httpError 429 (pyStr "Rate limit exceeded"), [])

/-- Modelled from the spec: the GET ingestion route behind the rate gate. -/
def ingest_get_limited (env : Env) (now : Nat) (prior : List Nat)
    (source : PyStr) (max_file_size : Option Int)
    (include_patterns exclude_patterns : Option PyStr)
    (branch : Option PyStr) : RouteResult × List Event :=
  if rateAllows ingestLimit now prior then
    ingest_repository_get env source max_file_size include_patterns
      exclude_patterns branch
  else (.httpError 429 (pyStr "Rate limit exceeded"), [])

/-- Modelled from the spec: the summary route behind the rate gate. -/
def summary_limited (env : Env) (now : Nat) (prior : List Nat)
    (source : PyStr) (branch : Option PyStr) : SummaryResult × List Event :=
  if rateAllows summaryLimit now prior then
    get_repository_summary env source branch
  else (.httpError 429 (some (pyStr "Rate limit exceeded")), [])

/-- A resolved query for a local path, shaped like the local-path test
fixture of tests/test_api_endpoints.py. -/
def qLocal : IngestionQuery :=
  { url := none, user_name := none, repo_name := none,
    slug := pyStr "local-project", branch := none, subpath := pyStr "/" }

/-- A resolved query for a remote repository, shaped like the remote test
fixture of tests/test_api_endpoints.py. -/
def qRemote : IngestionQuery :=
  { url := some (pyStr "https://github.com/test/repo"),
    user_name := some (pyStr "test"), repo_name := some (pyStr "repo"),
    slug := pyStr "test-repo", branch := some (pyStr "main"),
    subpath := pyStr "/" }

/-- An environment whose resolver yields the local query and whose
collaborators all succeed. -/
def envLocalOk : Env :=
  { parse_query := fun _ _ _ _ _ => .ok qLocal
  , clone_repo := fun _ => .ok ()
  , ingest_query := fun _ =>
      .ok (pyStr "summary text", pyStr "tree text", pyStr "content text") }

/-- An environment whose resolver yields the remote query and whose
collaborators all succeed. -/
def envRemoteOk : Env :=
  { parse_query := fun _ _ _ _ _ => .ok qRemote
  , clone_repo := fun _ => .ok ()
  , ingest_query := fun _ =>
      .ok (pyStr "summary text", pyStr "tree text", pyStr "content text") }

/-- An environment whose resolver raises a `ValueError`, like the
error-handling test fixture of tests/test_api_endpoints.py. -/
def envParseValueError : Env :=
  { parse_query := fun _ _ _ _ _ =>
      .error (.valueError (pyStr "Invalid repository URL"))
  , clone_repo := fun _ => .ok ()
  , ingest_query := fun _ =>
      .ok (pyStr "summary text", pyStr "tree text", pyStr "content text") }

/-- An environment whose cloning collaborator raises a `ValueError`, as
`gitingest.cloning.clone_repo` does for an inaccessible repository. -/
def envCloneValueError : Env :=
  { parse_query := fun _ _ _ _ _ => .ok qRemote
  , clone_repo := fun _ =>
      .error (.valueError (pyStr "Repository not found"))
  , ingest_query := fun _ =>
      .ok (pyStr "summary text", pyStr "tree text", pyStr "content text") }

/-- An environment whose cloning collaborator raises an exception that is
not a `ValueError`. -/
def envCloneOtherError : Env :=
  { parse_query := fun _ _ _ _ _ => .ok qRemote
  , clone_repo := fun _ => .error (.otherError (pyStr "network unreachable"))
  , ingest_query := fun _ =>
      .ok (pyStr "summary text", pyStr "tree text", pyStr "content text") }

/-- A resolved query exercising the Python-truthiness edge cases of the
metadata computation: url present but empty, user_name present with
repo_name absent, branch present but empty. -/
def qTruthyEdge : IngestionQuery :=
  { url := some [], user_name := some (pyStr "alice"), repo_name := none,
    slug := pyStr "local-slug", branch := some [], subpath := pyStr "/" }

/-- An environment whose resolver yields the truthiness-edge query and
whose collaborators all succeed. -/
def envTruthyEdge : Env :=
  { parse_query := fun _ _ _ _ _ => .ok qTruthyEdge
  , clone_repo := fun _ => .ok ()
  , ingest_query := fun _ =>
      .ok (pyStr "summary text", pyStr "tree text", pyStr "content text") }

/-- The envelope invariant: data and metadata are populated exactly on
success, the error message exactly on failure. -/
def responseInvariant (r : IngestResponse) : Prop :=
  r.data.isSome = r.success ∧ r.error.isSome = !r.success ∧
    r.metadata.isSome = r.success

/-- The metadata rule as the claim words it: remote whenever a url is
present, the user/repo pair only when both are present, the resolved
branch whenever one is present. -/
def metadataAsWritten (q : IngestionQuery) (m : Metadata) : Prop :=
  m.source_type = (if q.url.isSome then pyStr "remote" else pyStr "local")
  ∧ m.repository = (match q.user_name, q.repo_name with
      | some u, some r => u ++ pyStr "/" ++ r
      | _, _ => q.slug)
  ∧ m.branch = (match q.branch with
      | some b => b
      | none => pyStr "default")
  ∧ m.subpath = q.subpath

/-- The metadata rule with Python truthiness: remote when the url is
present and non-empty; the user/repo rendering (an absent repo_name
rendering as the text `None`) when user_name is present and non-empty,
else the slug; the resolved branch when present and non-empty, else the
literal `default`. -/
def metadataTruthy (q : IngestionQuery) (m : Metadata) : Prop :=
  m.source_type = (if pyOptTruthy q.url then pyStr "remote" else pyStr "local")
  ∧ m.repository = (if pyOptTruthy q.user_name then
      fmtOpt q.user_name ++ pyStr "/" ++ fmtOpt q.repo_name else q.slug)
  ∧ m.branch = pyOr q.branch (pyStr "default")
  ∧ m.subpath = q.subpath

/-! ### Helper lemmas on the pattern normalizer -/

theorem dropWhile_idem (p : Char → Bool) (l : PyStr) :
    (l.dropWhile p).dropWhile p = l.dropWhile p := by
  induction l with
  | nil => rfl
  | cons a l ih =>
    by_cases h : p a
    · simp [List.dropWhile_cons, h, ih]
    · simp [List.dropWhile_cons, h]

theorem head_dropWhile_fails (p : Char → Bool) (s x : PyStr) (c : Char)
    (h : s.dropWhile p = c :: x) : p c = false := by
  induction s with
  | nil => simp at h
  | cons a l ih =>
    by_cases ha : p a
    · exact ih (by simpa [List.dropWhile_cons, ha] using h)
    · rw [List.dropWhile_cons, if_neg (by simpa using ha)] at h
      cases h
      simpa using ha

theorem dropWhile_decomp (p : Char → Bool) (l : PyStr) :
    ∃ u, l = u ++ l.dropWhile p :=
  ⟨l.takeWhile p, (List.takeWhile_append_dropWhile p l).symm⟩

theorem pyStrip_strip_left (s : PyStr) :
    (pyStrip s).dropWhile isPyWs = pyStrip s := by
  unfold pyStrip
  set A := s.dropWhile isPyWs with hA
  obtain ⟨u, hu⟩ := dropWhile_decomp isPyWs A.reverse
  cases hX : (A.reverse.dropWhile isPyWs).reverse with
  | nil => simp [hX]
  | cons c x =>
    have hpref : A = c :: x ++ u.reverse := by
      calc A = A.reverse.reverse := (List.reverse_reverse A).symm
        _ = (u ++ A.reverse.dropWhile isPyWs).reverse := by rw [← hu]
        _ = (A.reverse.dropWhile isPyWs).reverse ++ u.reverse := by
              rw [List.reverse_append]
        _ = c :: x ++ u.reverse := by rw [hX]
    have hAfix : A.dropWhile isPyWs = A := by
      rw [hA]; exact dropWhile_idem isPyWs s
    have hc : isPyWs c = false := by
      apply head_dropWhile_fails isPyWs A (x ++ u.reverse) c
      rw [hAfix, hpref]; simp
    simp [List.dropWhile_cons, hc]

theorem pyStrip_idem (s : PyStr) : pyStrip (pyStrip s) = pyStrip s := by
  conv_lhs => rw [pyStrip, pyStrip_strip_left]
  rw [pyStrip, List.reverse_reverse, dropWhile_idem]

theorem mem_normalizeTokens {x : PyStr} {l : List PyStr}
    (h : x ∈ normalizeTokens l) : pyStrip x = x ∧ x.isEmpty = false := by
  unfold normalizeTokens at h
  rw [List.mem_dedup, List.mem_filter] at h
  obtain ⟨hm, hne⟩ := h
  rw [List.mem_map] at hm
  obtain ⟨y, _, rfl⟩ := hm
  exact ⟨pyStrip_idem y, by simpa using hne⟩

theorem map_eq_self_of_mem {α : Type} (f : α → α) (l : List α)
    (h : ∀ x ∈ l, f x = x) : l.map f = l := by
  induction l with
  | nil => rfl
  | cons a l ih =>
    simp only [List.map_cons, h a (by simp),
      ih (fun x hx => h x (by simp [hx]))]

theorem normalizeTokens_idem (l : List PyStr) :
    normalizeTokens (normalizeTokens l) = normalizeTokens l := by
  conv_lhs => rw [normalizeTokens]
  rw [map_eq_self_of_mem pyStrip _ (fun x hx => (mem_normalizeTokens hx).1)]
  rw [List.filter_eq_self.mpr
    (fun x hx => by simp [(mem_normalizeTokens hx).2])]
  exact List.dedup_eq_self.mpr
    (by unfold normalizeTokens; exact List.nodup_dedup _)

/-! ### Response-shape predicates and pipeline characterization -/

theorem mkMetadata_truthy (q : IngestionQuery) :
    metadataTruthy q (mkMetadata q) :=
  ⟨rfl, rfl, rfl, rfl⟩

theorem handlePyError_resp (e : PyError) (r : IngestResponse)
    (h : handlePyError e = .resp r) :
    r.success = false ∧ r.data = none ∧ r.error.isSome = true ∧
      r.metadata = none := by
  cases e with
  | valueError m => simp [handlePyError] at h
  | otherError m =>
    simp only [handlePyError, HandlerResult.resp.injEq] at h
    subst h
    exact ⟨rfl, rfl, rfl, rfl⟩

theorem pipeline_resp_shape (env : Env) (q : IngestionQuery)
    (r : IngestResponse) (evs : List Event)
    (h : pipelineAfterParse env q = (.resp r, evs)) :
    responseInvariant r ∧
      (r.success = true → r.metadata = some (mkMetadata q)) := by
  unfold pipelineAfterParse at h
  split at h <;> split at h
  case isTrue e heq =>
    injection h with h1 h2
    obtain ⟨hs, hd, he, hm⟩ := handlePyError_resp e r h1
    exact ⟨⟨by simp [hd, hs], by simp [he, hs], by simp [hm, hs]⟩,
      by simp [hs]⟩
  case isTrue val heq =>
    split at h
    case h_1 e heq2 =>
      injection h with h1 h2
      obtain ⟨hs, hd, he, hm⟩ := handlePyError_resp e r h1
      exact ⟨⟨by simp [hd, hs], by simp [he, hs], by simp [hm, hs]⟩,
        by simp [hs]⟩
    case h_2 out heq2 =>
      injection h with h1 h2
      simp only [successResponse, HandlerResult.resp.injEq] at h1
      subst h1
      exact ⟨⟨rfl, rfl, rfl⟩, fun _ => rfl⟩
  case isFalse e heq =>
    injection h with h1 h2
    obtain ⟨hs, hd, he, hm⟩ := handlePyError_resp e r h1
    exact ⟨⟨by simp [hd, hs], by simp [he, hs], by simp [hm, hs]⟩,
      by simp [hs]⟩
  case isFalse out heq =>
    injection h with h1 h2
    simp only [successResponse, HandlerResult.resp.injEq] at h1
    subst h1
    exact ⟨⟨rfl, rfl, rfl⟩, fun _ => rfl⟩

theorem applyBranchOverride_url (body : IngestRequest) (q : IngestionQuery) :
    (applyBranchOverride body q).url = q.url := by
  unfold applyBranchOverride
  split <;> rfl

theorem handler_resp_shape (env : Env) (body : IngestRequest)
    (r : IngestResponse) (evs : List Event)
    (h : ingest_repository env body = (.resp r, evs)) :
    responseInvariant r ∧
      (r.success = true → ∃ q0,
        env.parse_query body.source body.max_file_size true
          body.include_patterns body.exclude_patterns = .ok q0 ∧
        r.metadata = some (mkMetadata (applyBranchOverride body q0))) := by
  unfold ingest_repository at h
  split at h
  case h_1 e heq =>
    injection h with h1 h2
    obtain ⟨hs, hd, he, hm⟩ := handlePyError_resp e r h1
    exact ⟨⟨by simp [hd, hs], by simp [he, hs], by simp [hm, hs]⟩,
      by simp [hs]⟩
  case h_2 q0 heq =>
    injection h with h1 h2
    have hp : pipelineAfterParse env (applyBranchOverride body q0) =
        (.resp r, (pipelineAfterParse env (applyBranchOverride body q0)).2) := by
      rw [← h1]
    obtain ⟨hinv, hmeta⟩ := pipeline_resp_shape env _ r _ hp
    exact ⟨hinv, fun hs => ⟨q0, heq, hmeta hs⟩⟩

theorem pipeline_trace_no_url (env : Env) (q : IngestionQuery)
    (h : q.url = none) : (pipelineAfterParse env q).2 = [Event.ingestCall] := by
  unfold pipelineAfterParse
  rw [h]
  simp only [pyOptTruthy, Bool.false_eq_true, if_false]
  cases env.ingest_query q <;> simp

theorem handler_trace_no_url (env : Env) (body : IngestRequest)
    (q0 : IngestionQuery)
    (hp : env.parse_query body.source body.max_file_size true
      body.include_patterns body.exclude_patterns = .ok q0)
    (hurl : q0.url = none) :
    (ingest_repository env body).2 = [Event.resolveCall, Event.ingestCall] := by
  unfold ingest_repository
  rw [hp]
  have : (applyBranchOverride body q0).url = none := by
    rw [applyBranchOverride_url, hurl]
  simp [pipeline_trace_no_url env _ this]

theorem handler_trace_head (env : Env) (body : IngestRequest) :
    (ingest_repository env body).2.head? = some Event.resolveCall := by
  unfold ingest_repository
  cases env.parse_query body.source body.max_file_size true
      body.include_patterns body.exclude_patterns <;> simp

theorem ofHandler_resp (x : HandlerResult) (r : IngestResponse)
    (h : RouteResult.ofHandler x = .resp r) : x = .resp r := by
  cases x with
  | resp s => simp [RouteResult.ofHandler] at h; rw [h]
  | httpError s d => simp [RouteResult.ofHandler] at h

/-! ### Claim theorems -/

/-- C1: for every pair of semantically equal valid inputs (same source,
max_file_size, include/exclude pattern sets after normalization, and
branch), the flat-parameter (GET) adapter and the structured-body (POST)
adapter return identical results — the GET adapter normalizes its
delimited pattern strings, builds the same IngestRequest, and delegates to
the POST handler, so responses and collaborator traces coincide. -/
theorem C1_transport_equivalence (env : Env) (source : PyStr)
    (max_file_size : Option Int) (includeStr excludeStr : Option PyStr)
    (branch : Option PyStr) (includeSet excludeSet : Option (List PyStr))
    (hv : mfsValid max_file_size = true)
    (hi : includeSet = normOptPattern includeStr)
    (he : excludeSet = normOptPattern excludeStr) :
    ingest_repository_get env source max_file_size includeStr excludeStr
      branch =
    ingest_repository_post env source max_file_size includeSet excludeSet
      branch := by
  subst hi he
  unfold ingest_repository_get ingest_repository_post validateIngestRequest
  rw [if_pos hv]

theorem C1_transport_equivalence_witness :
    ingest_repository_get envRemoteOk (pyStr "https://github.com/test/repo")
      (some 2097152) (some (pyStr "*.py,*.md")) none (some (pyStr "develop")) =
    ingest_repository_post envRemoteOk (pyStr "https://github.com/test/repo")
      (some 2097152) (normOptPattern (some (pyStr "*.py,*.md")))
      (normOptPattern none) (some (pyStr "develop")) :=
  C1_transport_equivalence envRemoteOk _ _ _ _ _ _ _ (by decide) rfl rfl

/-- C5: every IngestResponse returned by the ingest endpoints populates
data and metadata exactly when success is true and error exactly when
success is false (and data, being the full record type, always carries
summary, tree and content together). -/
theorem C5_envelope_invariant :
    (∀ env body r evs, ingest_repository env body = (.resp r, evs) →
      responseInvariant r)
    ∧ (∀ env source mfs inc exc branch r evs,
        ingest_repository_post env source mfs inc exc branch =
          (.resp r, evs) → responseInvariant r)
    ∧ (∀ env source mfs incS excS branch r evs,
        ingest_repository_get env source mfs incS excS branch =
          (.resp r, evs) → responseInvariant r) := by
  have hpost : ∀ env source mfs inc exc branch r evs,
      ingest_repository_post env source mfs inc exc branch =
        (.resp r, evs) → responseInvariant r := by
    intro env source mfs inc exc branch r evs h
    unfold ingest_repository_post at h
    split at h
    case h_1 body heq =>
      injection h with h1 h2
      have hx := ofHandler_resp _ r h1
      have hfull : ingest_repository env body =
          (.resp r, (ingest_repository env body).2) := by rw [← hx]
      exact (handler_resp_shape env body r _ hfull).1
    case h_2 heq =>
      injection h with h1 h2
      exact absurd h1 (by simp)
  refine ⟨?_, hpost, ?_⟩
  · intro env body r evs h
    exact (handler_resp_shape env body r evs h).1
  · intro env source mfs incS excS branch r evs h
    unfold ingest_repository_get at h
    split at h
    case h_1 body heq =>
      injection h with h1 h2
      have hx := ofHandler_resp _ r h1
      have hfull : ingest_repository env body =
          (.resp r, (ingest_repository env body).2) := by rw [← hx]
      exact (handler_resp_shape env body r _ hfull).1
    case h_2 heq =>
      injection h with h1 h2
      exact absurd h1 (by simp)

theorem C5_envelope_invariant_witness :
    responseInvariant
      { success := true
      , data := some { summary := pyStr "summary text"
                     , tree := pyStr "tree text"
                     , content := pyStr "content text" }
      , error := none
      , metadata := some { source_type := pyStr "local"
                         , repository := pyStr "local-project"
                         , branch := pyStr "default"
                         , subpath := pyStr "/" } } :=
  C5_envelope_invariant.1 envLocalOk
    { source := pyStr "/path", max_file_size := none,
      include_patterns := none, exclude_patterns := none, branch := none }
    _ [Event.resolveCall, Event.ingestCall] (by decide)

/-- C6: for every request whose resolved query carries no url, the clone
collaborator is never invoked and the clone configuration is never
derived — the trace goes directly from the resolve call to the ingest
call. -/
theorem C6_local_skips_clone (env : Env) (body : IngestRequest)
    (q0 : IngestionQuery)
    (hp : env.parse_query body.source body.max_file_size true
      body.include_patterns body.exclude_patterns = .ok q0)
    (hurl : q0.url = none) :
    (ingest_repository env body).2 = [Event.resolveCall, Event.ingestCall]
    ∧ Event.cloneCall ∉ (ingest_repository env body).2
    ∧ Event.cloneConfigCall ∉ (ingest_repository env body).2 := by
  have ht := handler_trace_no_url env body q0 hp hurl
  refine ⟨ht, ?_, ?_⟩ <;> rw [ht] <;> simp

theorem C6_local_skips_clone_witness :
    (ingest_repository envLocalOk
      { source := pyStr "/local/project", max_file_size := none,
        include_patterns := none, exclude_patterns := none,
        branch := none }).2 = [Event.resolveCall, Event.ingestCall]
    ∧ Event.cloneCall ∉ (ingest_repository envLocalOk
      { source := pyStr "/local/project", max_file_size := none,
        include_patterns := none, exclude_patterns := none,
        branch := none }).2
    ∧ Event.cloneConfigCall ∉ (ingest_repository envLocalOk
      { source := pyStr "/local/project", max_file_size := none,
        include_patterns := none, exclude_patterns := none,
        branch := none }).2 :=
  C6_local_skips_clone envLocalOk _ qLocal rfl rfl

/-- C7: pattern normalization strips each comma-separated token, drops the
ones that are empty after stripping and deduplicates; it is idempotent on
token lists, and the two delimited example strings of the claim normalize
to exactly the claimed pattern sets. -/
theorem C7_pattern_normalization :
    (∀ l : List PyStr, normalizeTokens (normalizeTokens l) =
      normalizeTokens l)
    ∧ normalizePatterns (pyStr "*.py, *.md, *.txt")
        = [pyStr "*.py", pyStr "*.md", pyStr "*.txt"]
    ∧ normalizePatterns (pyStr "*.log,  *.tmp ")
        = [pyStr "*.log", pyStr "*.tmp"] :=
  ⟨normalizeTokens_idem, by decide, by decide⟩

/-- C10: the branch override is applied only when the request's branch is
a present, non-empty string; an absent or empty branch leaves the resolved
query (and hence the reported metadata branch) exactly as the resolver
produced it. -/
theorem C10_branch_override_only_nonempty (body : IngestRequest)
    (q : IngestionQuery) :
    ((body.branch = none ∨ body.branch = some []) →
      applyBranchOverride body q = q)
    ∧ (∀ b, body.branch = some b → b.isEmpty = false →
        (applyBranchOverride body q).branch = some b)
    ∧ ((body.branch = none ∨ body.branch = some []) →
        (mkMetadata (applyBranchOverride body q)).branch =
          (mkMetadata q).branch) := by
  refine ⟨?_, ?_, ?_⟩
  · rintro (h | h) <;> simp [applyBranchOverride, pyOptTruthy, h]
  · intro b hb hne
    simp [applyBranchOverride, pyOptTruthy, hb, hne]
  · rintro (h | h) <;> simp [applyBranchOverride, pyOptTruthy, h]

theorem C10_branch_override_only_nonempty_witness :
    applyBranchOverride
      { source := pyStr "x", max_file_size := none,
        include_patterns := none, exclude_patterns := none,
        branch := none } qRemote = qRemote
    ∧ (applyBranchOverride
      { source := pyStr "x", max_file_size := none,
        include_patterns := none, exclude_patterns := none,
        branch := some (pyStr "dev") } qRemote).branch =
        some (pyStr "dev") :=
  ⟨(C10_branch_override_only_nonempty _ qRemote).1 (Or.inl rfl),
   (C10_branch_override_only_nonempty _ qRemote).2.1 (pyStr "dev") rfl
     (by decide)⟩

theorem handler_parse_err_eq (env : Env) (body : IngestRequest) (e : PyError)
    (hp : env.parse_query body.source body.max_file_size true
      body.include_patterns body.exclude_patterns = .error e) :
    ingest_repository env body = (handlePyError e, [Event.resolveCall]) := by
  unfold ingest_repository
  rw [hp]

theorem handler_parse_ok_eq (env : Env) (body : IngestRequest)
    (q0 : IngestionQuery)
    (hp : env.parse_query body.source body.max_file_size true
      body.include_patterns body.exclude_patterns = .ok q0) :
    ingest_repository env body =
      ((pipelineAfterParse env (applyBranchOverride body q0)).1,
       Event.resolveCall ::
         (pipelineAfterParse env (applyBranchOverride body q0)).2) := by
  unfold ingest_repository
  rw [hp]

theorem pipeline_clone_err_eq (env : Env) (q : IngestionQuery) (e : PyError)
    (hu : pyOptTruthy q.url = true)
    (hc : env.clone_repo (extract_clone_config q) = .error e) :
    pipelineAfterParse env q =
      (handlePyError e, [Event.cloneConfigCall, Event.cloneCall]) := by
  unfold pipelineAfterParse
  rw [if_pos hu, hc]

theorem pipeline_remote_ingest_err_eq (env : Env) (q : IngestionQuery)
    (e : PyError) (hu : pyOptTruthy q.url = true)
    (hc : env.clone_repo (extract_clone_config q) = .ok ())
    (hi : env.ingest_query q = .error e) :
    pipelineAfterParse env q =
      (handlePyError e,
       [Event.cloneConfigCall, Event.cloneCall, Event.ingestCall]) := by
  unfold pipelineAfterParse
  rw [if_pos hu, hc, hi]

theorem pipeline_local_ingest_err_eq (env : Env) (q : IngestionQuery)
    (e : PyError) (hu : pyOptTruthy q.url = false)
    (hi : env.ingest_query q = .error e) :
    pipelineAfterParse env q = (handlePyError e, [Event.ingestCall]) := by
  unfold pipelineAfterParse
  rw [if_neg (by simp [hu]), hi]

/-- C2 counterexample: with an all-successful environment, a structured-body
request whose source is the empty string is not rejected — the resolver and
the ingestion collaborator are both invoked and the request succeeds; and a
flat-parameter request with out-of-bounds max_file_size ends as an uncaught
request-model validation error, not as an HTTP client-error response. -/
theorem C2_counterexample :
    (ingest_repository_post envLocalOk (pyStr "") (some 1048576) none none
      none).2 = [Event.resolveCall, Event.ingestCall]
    ∧ (ingest_repository_post envLocalOk (pyStr "") (some 1048576) none none
      none).1 = RouteResult.resp
        { success := true
        , data := some { summary := pyStr "summary text"
                       , tree := pyStr "tree text"
                       , content := pyStr "content text" }
        , error := none
        , metadata := some { source_type := pyStr "local"
                           , repository := pyStr "local-project"
                           , branch := pyStr "default"
                           , subpath := pyStr "/" } }
    ∧ ingest_repository_get envLocalOk (pyStr "x") (some 500) none none none
      = (RouteResult.unhandledValidation, []) := by
  refine ⟨by decide, by decide, by decide⟩

/-- C2 amended: a request whose max_file_size lies outside
[1024, 104857600] is rejected before any collaborator call on both
transports — as a 422 request-validation client error on the
structured-body transport, and as an uncaught request-model validation
exception (not a deliberate client-error response) on the flat-parameter
transport; a request with an empty source, however, is not rejected by
validation: whenever the request model validates, the resolver is the
first collaborator invoked, whatever the source string. -/
theorem C2_amended_size_rejection :
    (∀ env source mfs inc exc branch, mfsValid mfs = false →
      ingest_repository_post env source mfs inc exc branch =
        (.validation422, []))
    ∧ (∀ env source mfs incS excS branch, mfsValid mfs = false →
      ingest_repository_get env source mfs incS excS branch =
        (.unhandledValidation, []))
    ∧ (∀ env source mfs inc exc branch, mfsValid mfs = true →
      (ingest_repository_post env source mfs inc exc branch).2.head? =
        some Event.resolveCall) := by
  refine ⟨?_, ?_, ?_⟩
  · intro env source mfs inc exc branch h
    unfold ingest_repository_post validateIngestRequest
    rw [if_neg (by simp [h])]
  · intro env source mfs incS excS branch h
    unfold ingest_repository_get validateIngestRequest
    rw [if_neg (by simp [h])]
  · intro env source mfs inc exc branch h
    unfold ingest_repository_post validateIngestRequest
    rw [if_pos h]
    simpa using handler_trace_head env _

theorem C2_amended_size_rejection_witness :
    ingest_repository_post envLocalOk (pyStr "https://github.com/test/repo")
      (some 500) none none none = (.validation422, [])
    ∧ ingest_repository_get envLocalOk (pyStr "https://github.com/test/repo")
      (some 209715200) none none none = (.unhandledValidation, [])
    ∧ (ingest_repository_post envLocalOk (pyStr "") (some 1048576) none none
      none).2.head? = some Event.resolveCall :=
  ⟨C2_amended_size_rejection.1 envLocalOk _ _ _ _ _ (by decide),
   C2_amended_size_rejection.2.1 envLocalOk _ _ _ _ _ (by decide),
   C2_amended_size_rejection.2.2 envLocalOk _ _ _ _ _ (by decide)⟩

/-- C3 counterexample: a `ValueError` raised by the cloning collaborator —
as `gitingest.cloning.clone_repo` raises for an inaccessible repository —
is surfaced by the handler as a 400 `HTTPException`, not as an
`IngestResponse` with success=false, so not every acquisition failure is
converted into the failure envelope. -/
theorem C3_counterexample :
    ingest_repository envCloneValueError
      { source := pyStr "https://github.com/test/repo",
        max_file_size := none, include_patterns := none,
        exclude_patterns := none, branch := none } =
      (.httpError 400 (pyStr "Repository not found"),
       [Event.resolveCall, Event.cloneConfigCall, Event.cloneCall]) := by
  decide

/-- C3 amended: a `ValueError` signalled by the resolver yields the
distinct 400 client-error outcome, not a success=false envelope; failures
raised during acquisition or ingestion that are not of the validation
class (`ValueError`) are caught at the pipeline boundary and returned as
an IngestResponse with success=false and error equal to the failure's
message text; a validation-class failure raised during acquisition or
ingestion is likewise surfaced as the 400 client-error outcome rather
than the envelope. -/
theorem C3_amended_error_routing (env : Env) (body : IngestRequest) :
    (∀ m, env.parse_query body.source body.max_file_size true
        body.include_patterns body.exclude_patterns =
          .error (.valueError m) →
      ingest_repository env body = (.httpError 400 m, [Event.resolveCall]))
    ∧ (∀ m, env.parse_query body.source body.max_file_size true
        body.include_patterns body.exclude_patterns =
          .error (.otherError m) →
      ingest_repository env body =
        (.resp { success := false, data := none, error := some m,
                 metadata := none }, [Event.resolveCall]))
    ∧ (∀ q0 m, env.parse_query body.source body.max_file_size true
        body.include_patterns body.exclude_patterns = .ok q0 →
      pyOptTruthy (applyBranchOverride body q0).url = true →
      env.clone_repo (extract_clone_config (applyBranchOverride body q0)) =
        .error (.otherError m) →
      ingest_repository env body =
        (.resp { success := false, data := none, error := some m,
                 metadata := none },
         [Event.resolveCall, Event.cloneConfigCall, Event.cloneCall]))
    ∧ (∀ q0 m, env.parse_query body.source body.max_file_size true
        body.include_patterns body.exclude_patterns = .ok q0 →
      pyOptTruthy (applyBranchOverride body q0).url = true →
      env.clone_repo (extract_clone_config (applyBranchOverride body q0)) =
        .error (.valueError m) →
      ingest_repository env body =
        (.httpError 400 m,
         [Event.resolveCall, Event.cloneConfigCall, Event.cloneCall]))
    ∧ (∀ q0 m, env.parse_query body.source body.max_file_size true
        body.include_patterns body.exclude_patterns = .ok q0 →
      pyOptTruthy (applyBranchOverride body q0).url = true →
      env.clone_repo (extract_clone_config (applyBranchOverride body q0)) =
        .ok () →
      env.ingest_query (applyBranchOverride body q0) =
        .error (.otherError m) →
      ingest_repository env body =
        (.resp { success := false, data := none, error := some m,
                 metadata := none },
         [Event.resolveCall, Event.cloneConfigCall, Event.cloneCall,
          Event.ingestCall]))
    ∧ (∀ q0 m, env.parse_query body.source body.max_file_size true
        body.include_patterns body.exclude_patterns = .ok q0 →
      pyOptTruthy (applyBranchOverride body q0).url = false →
      env.ingest_query (applyBranchOverride body q0) =
        .error (.otherError m) →
      ingest_repository env body =
        (.resp { success := false, data := none, error := some m,
                 metadata := none },
         [Event.resolveCall, Event.ingestCall]))
    ∧ (∀ q0 m, env.parse_query body.source body.max_file_size true
        body.include_patterns body.exclude_patterns = .ok q0 →
      pyOptTruthy (applyBranchOverride body q0).url = false →
      env.ingest_query (applyBranchOverride body q0) =
        .error (.valueError m) →
      ingest_repository env body =
        (.httpError 400 m, [Event.resolveCall, Event.ingestCall])) := by
  refine ⟨?_, ?_, ?_, ?_, ?_, ?_, ?_⟩
  · intro m hp
    rw [handler_parse_err_eq env body _ hp]
    rfl
  · intro m hp
    rw [handler_parse_err_eq env body _ hp]
    rfl
  · intro q0 m hp hu hc
    rw [handler_parse_ok_eq env body q0 hp,
      pipeline_clone_err_eq env _ _ hu hc]
    rfl
  · intro q0 m hp hu hc
    rw [handler_parse_ok_eq env body q0 hp,
      pipeline_clone_err_eq env _ _ hu hc]
    rfl
  · intro q0 m hp hu hc hi
    rw [handler_parse_ok_eq env body q0 hp,
      pipeline_remote_ingest_err_eq env _ _ hu hc hi]
    rfl
  · intro q0 m hp hu hi
    rw [handler_parse_ok_eq env body q0 hp,
      pipeline_local_ingest_err_eq env _ _ hu hi]
    rfl
  · intro q0 m hp hu hi
    rw [handler_parse_ok_eq env body q0 hp,
      pipeline_local_ingest_err_eq env _ _ hu hi]
    rfl

theorem C3_amended_error_routing_witness :
    ingest_repository envParseValueError
      { source := pyStr "invalid-url", max_file_size := none,
        include_patterns := none, exclude_patterns := none,
        branch := none } =
      (.httpError 400 (pyStr "Invalid repository URL"), [Event.resolveCall])
    ∧ ingest_repository envCloneOtherError
      { source := pyStr "https://github.com/test/repo",
        max_file_size := none, include_patterns := none,
        exclude_patterns := none, branch := none } =
      (.resp { success := false, data := none,
               error := some (pyStr "network unreachable"),
               metadata := none },
       [Event.resolveCall, Event.cloneConfigCall, Event.cloneCall]) :=
  ⟨(C3_amended_error_routing envParseValueError _).1 _ rfl,
   (C3_amended_error_routing envCloneOtherError _).2.2.1 qRemote _ rfl
     (by decide) rfl⟩

/-- C4 counterexample: with a resolver output whose url is the empty
string, whose user_name is present while repo_name is absent, and whose
branch is the empty string, the pipeline succeeds and reports metadata
source_type local, repository alice/None and branch default, while the
claim's rule predicts remote, the slug, and the empty branch — the code
computes metadata by Python truthiness of user_name alone, not by joint
presence of the pair. -/
theorem C4_counterexample :
    (ingest_repository envTruthyEdge
      { source := pyStr "x", max_file_size := none,
        include_patterns := none, exclude_patterns := none,
        branch := none }).1 = HandlerResult.resp
      { success := true
      , data := some { summary := pyStr "summary text"
                     , tree := pyStr "tree text"
                     , content := pyStr "content text" }
      , error := none
      , metadata := some { source_type := pyStr "local"
                         , repository := pyStr "alice/None"
                         , branch := pyStr "default"
                         , subpath := pyStr "/" } }
    ∧ ¬ metadataAsWritten qTruthyEdge
        { source_type := pyStr "local", repository := pyStr "alice/None",
          branch := pyStr "default", subpath := pyStr "/" } := by
  refine ⟨by decide, by unfold metadataAsWritten; decide⟩

/-- C4 amended: for every request in which resolution, acquisition and
ingestion all succeed, the response metadata is computed from the
branch-overridden resolved query with Python truthiness: source_type is
remote when the url is present and non-empty and local otherwise;
repository is the rendering of user_name, a slash, and repo_name (an
absent repo_name rendering as the text None) when user_name is present
and non-empty, and the resolved slug otherwise; branch is the resolved
branch when present and non-empty and the literal default otherwise;
subpath is the resolved subpath. -/
theorem C4_amended_metadata (env : Env) (body : IngestRequest)
    (r : IngestResponse) (evs : List Event)
    (h : ingest_repository env body = (.resp r, evs))
    (hs : r.success = true) :
    ∃ q0 m, env.parse_query body.source body.max_file_size true
        body.include_patterns body.exclude_patterns = .ok q0
      ∧ r.metadata = some m
      ∧ metadataTruthy (applyBranchOverride body q0) m := by
  obtain ⟨-, hmeta⟩ := handler_resp_shape env body r evs h
  obtain ⟨q0, hp, hm⟩ := hmeta hs
  exact ⟨q0, mkMetadata (applyBranchOverride body q0), hp, hm,
    mkMetadata_truthy _⟩

theorem C4_amended_metadata_witness :
    ∃ q0 m, envRemoteOk.parse_query (pyStr "https://github.com/test/repo")
        none true none none = .ok q0
      ∧ (some { source_type := pyStr "remote"
              , repository := pyStr "test/repo"
              , branch := pyStr "main"
              , subpath := pyStr "/" } : Option Metadata) = some m
      ∧ metadataTruthy (applyBranchOverride
          { source := pyStr "https://github.com/test/repo",
            max_file_size := none, include_patterns := none,
            exclude_patterns := none, branch := some (pyStr "main") } q0) m :=
  C4_amended_metadata envRemoteOk
    { source := pyStr "https://github.com/test/repo",
      max_file_size := none, include_patterns := none,
      exclude_patterns := none, branch := some (pyStr "main") }
    { success := true
    , data := some { summary := pyStr "summary text"
                   , tree := pyStr "tree text"
                   , content := pyStr "content text" }
    , error := none
    , metadata := some { source_type := pyStr "remote"
                       , repository := pyStr "test/repo"
                       , branch := pyStr "main"
                       , subpath := pyStr "/" } }
    [Event.resolveCall, Event.cloneConfigCall, Event.cloneCall,
     Event.ingestCall] (by decide) rfl

/-- C8: when the underlying full pipeline succeeds, the summary route
returns exactly the four keys source, summary, repository and branch —
omitting tree and content — with source echoing the caller's input and the
other three taken from the full response; when the underlying full
response reports failure, the summary route raises a 400 carrying that
response's error instead of returning a partial summary. -/
theorem C8_summary_view (env : Env) (source : PyStr) (branch : Option PyStr)
    (r : IngestResponse) (evs : List Event)
    (h : ingest_repository env
      { source := source, max_file_size := some 10485760,
        include_patterns := none, exclude_patterns := none,
        branch := branch } = (.resp r, evs)) :
    (∀ d m, r.success = true → r.data = some d → r.metadata = some m →
      get_repository_summary env source branch =
        (.ok [(pyStr "source", source), (pyStr "summary", d.summary),
              (pyStr "repository", m.repository),
              (pyStr "branch", m.branch)], evs)
      ∧ ([(pyStr "source", source), (pyStr "summary", d.summary),
          (pyStr "repository", m.repository),
          (pyStr "branch", m.branch)].map Prod.fst =
           [pyStr "source", pyStr "summary", pyStr "repository",
            pyStr "branch"])
      ∧ pyStr "tree" ∉ [(pyStr "source", source),
          (pyStr "summary", d.summary), (pyStr "repository", m.repository),
          (pyStr "branch", m.branch)].map Prod.fst
      ∧ pyStr "content" ∉ [(pyStr "source", source),
          (pyStr "summary", d.summary), (pyStr "repository", m.repository),
          (pyStr "branch", m.branch)].map Prod.fst)
    ∧ (r.success = false →
      get_repository_summary env source branch =
        (.httpError 400 r.error, evs)) := by
  have h1 : (ingest_repository env
      { source := source, max_file_size := some 10485760,
        include_patterns := none, exclude_patterns := none,
        branch := branch }).1 = .resp r := by rw [h]
  have h2 : (ingest_repository env
      { source := source, max_file_size := some 10485760,
        include_patterns := none, exclude_patterns := none,
        branch := branch }).2 = evs := by rw [h]
  constructor
  · intro d m hs hd hm
    refine ⟨?_, by simp, by simp only [List.map_cons, List.map_nil]; decide,
      by simp only [List.map_cons, List.map_nil]; decide⟩
    unfold get_repository_summary
    simp [h1, h2, hs, hd, hm]
  · intro hs
    unfold get_repository_summary
    simp [h1, h2, hs]

theorem C8_summary_view_witness :
    get_repository_summary envLocalOk (pyStr "/local/project") none =
      (.ok [(pyStr "source", pyStr "/local/project"),
            (pyStr "summary", pyStr "summary text"),
            (pyStr "repository", pyStr "local-project"),
            (pyStr "branch", pyStr "default")],
       [Event.resolveCall, Event.ingestCall]) :=
  ((C8_summary_view envLocalOk (pyStr "/local/project") none
    { success := true
    , data := some { summary := pyStr "summary text"
                   , tree := pyStr "tree text"
                   , content := pyStr "content text" }
    , error := none
    , metadata := some { source_type := pyStr "local"
                       , repository := pyStr "local-project"
                       , branch := pyStr "default"
                       , subpath := pyStr "/" } }
    [Event.resolveCall, Event.ingestCall] (by decide)).1
      { summary := pyStr "summary text", tree := pyStr "tree text",
        content := pyStr "content text" }
      { source_type := pyStr "local", repository := pyStr "local-project",
        branch := pyStr "default", subpath := pyStr "/" }
      rfl rfl rfl).1

/-- C9: the full ingestion routes are capped at 5 requests per rolling
minute per client and the summary route at 10; a request arriving when the
cap is already reached in the window — such as the 6th full-ingestion
request within one minute — is rejected with the distinct 429 rate-limit
status with no collaborator call, while an under-cap request runs the
route unchanged. -/
theorem C9_rate_limits :
    ingestLimit = 5 ∧ summaryLimit = 10
    ∧ (∀ env now prior source mfs inc exc branch,
        ingestLimit ≤ (prior.filter (fun t => t ≤ now && now - t < 60)).length →
        ingest_post_limited env now prior source mfs inc exc branch =
          (.httpError 429 (pyStr "Rate limit exceeded"), []))
    ∧ (∀ env now prior source mfs incS excS branch,
        ingestLimit ≤ (prior.filter (fun t => t ≤ now && now - t < 60)).length →
        ingest_get_limited env now prior source mfs incS excS branch =
          (.httpError 429 (pyStr "Rate limit exceeded"), []))
    ∧ (∀ env now prior source branch,
        summaryLimit ≤ (prior.filter (fun t => t ≤ now && now - t < 60)).length →
        summary_limited env now prior source branch =
          (.httpError 429 (some (pyStr "Rate limit exceeded")), []))
    ∧ (∀ env now prior source mfs inc exc branch,
        (prior.filter (fun t => t ≤ now && now - t < 60)).length < ingestLimit →
        ingest_post_limited env now prior source mfs inc exc branch =
          ingest_repository_post env source mfs inc exc branch) := by
  refine ⟨rfl, rfl, ?_, ?_, ?_, ?_⟩
  · intro env now prior source mfs inc exc branch h
    unfold ingest_post_limited
    rw [if_neg (by simp [rateAllows, Nat.not_lt.mpr h])]
  · intro env now prior source mfs incS excS branch h
    unfold ingest_get_limited
    rw [if_neg (by simp [rateAllows, Nat.not_lt.mpr h])]
  · intro env now prior source branch h
    unfold summary_limited
    rw [if_neg (by simp [rateAllows, Nat.not_lt.mpr h])]
  · intro env now prior source mfs inc exc branch h
    unfold ingest_post_limited
    rw [if_pos (by simp [rateAllows, h])]

theorem C9_rate_limits_witness :
    ingest_post_limited envRemoteOk 59 [10, 20, 30, 40, 50]
      (pyStr "https://github.com/test/repo") none none none none =
      (.httpError 429 (pyStr "Rate limit exceeded"), [])
    ∧ summary_limited envRemoteOk 30
      [1, 2, 3, 4, 5, 6, 7, 8, 9, 10]
      (pyStr "https://github.com/test/repo") none =
      (.httpError 429 (some (pyStr "Rate limit exceeded")), [])
    ∧ ingest_post_limited envRemoteOk 59 [10, 20, 30, 40]
      (pyStr "https://github.com/test/repo") none none none none =
      ingest_repository_post envRemoteOk
        (pyStr "https://github.com/test/repo") none none none none :=
  ⟨C9_rate_limits.2.2.1 envRemoteOk 59 [10, 20, 30, 40, 50] _ _ _ _ _
     (by decide),
   C9_rate_limits.2.2.2.2.1 envRemoteOk 30 [1, 2, 3, 4, 5, 6, 7, 8, 9, 10]
     _ _ (by decide),
   C9_rate_limits.2.2.2.2.2 envRemoteOk 59 [10, 20, 30, 40] _ _ _ _ _
     (by decide)⟩
